import Mathlib

/-!
# Verification of the fping_exporter sources

Shallow embedding of the two source files of the repository,
`src/main.rs` and `src/ping_result.rs`, together with theorems settling
the specification claims about them.

Modelling conventions:

* Rust strings are Lean `String`s; most character processing is done on
  `List Char` (the `data` of a string) so that everything reduces in the
  kernel.
* Machine integers (`u8`) are `Nat`s with the overflow check of
  `u8::from_str` made explicit (value ≤ 255, otherwise a `ParseIntError`).
* `f64` values are modelled as exact rationals (`ℚ`): every float literal
  handled by the program has the decimal shape `\d+\.?\d*`, whose decimal
  value is an exact rational, and the only arithmetic performed on it is
  a division by 1000.
* A Rust panic (`Option::unwrap` on `None` / `Result::unwrap` on `Err`)
  is modelled by the value `none` of an enclosing `Option`: a function
  that can panic returns `Option α`, and `none` means "panics".
* The invocation of the external `fping` process is modelled by passing
  the outcome of `Command::output()` as an argument: either an I/O error
  (the spawn itself failed) or a `CommandOutput` carrying the exit status
  and the captured streams.  `String::from_utf8_lossy` is modelled by
  taking the captured stderr directly as text.
* `IpAddr` parsing (`std::net`) is modelled for the IPv4 dotted-quad
  grammar (digits only, no leading zeros, each octet ≤ 255); IPv6 textual
  forms are not modelled and are treated as parse failures.  Every
  concrete input handled in the theorems below uses IPv4 addresses, and
  no universal theorem depends on which address strings succeed.
* The regex crate's `\d` is Unicode-aware; it is modelled as the ASCII
  digit class.  `str::trim` is modelled with `Char.isWhitespace`.

The central piece is an executable model of the pattern

  `(?P<ip_address>.*) :.*= (?P<sent>\d+)/(?P<received>\d+)/(?P<lost>\d+)%`
  `(?:,.*= (?P<min>\d+\.?\d*)/(?P<avg>\d+\.?\d*)/(?P<max>\d+\.?\d*))?`

shared verbatim by `ping_result.rs` (`FPING_REGEX`) and `main.rs`
(`process_subnet`), including the regex crate's leftmost-first match
semantics: start positions are tried left to right, and within one start
position alternatives are tried in greedy backtracking preference order
(`.*`, `\d+`, `\d*` and `\.?` prefer consuming more, the optional group
prefers participating).  `.` does not match a newline.
-/

namespace FpingExporter

/-- All decompositions of the input for the regex fragment `.*LIT`:
`dotStarThen lit l` lists every split `l = pre ++ lit ++ rest` where
`pre` contains no newline (regex `.` does not match `\n`), ordered by
decreasing length of `pre` — the backtracking preference order of a
greedy `.*` followed by a literal. -/
def dotStarThen (lit : List Char) : List Char → List (List Char × List Char)
  | [] => if lit = [] then [([], [])] else []
  | c :: rest =>
      (if c = '\n' then []
       else (dotStarThen lit rest).map (fun pr => (c :: pr.1, pr.2)))
      ++ (if lit.isPrefixOf (c :: rest) then [([], (c :: rest).drop lit.length)] else [])

/-- Maximal ASCII-digit prefix of `l` (model of the `\d` class). -/
def digitsPref : List Char → List Char
  | [] => []
  | c :: rest => if c.isDigit then c :: digitsPref rest else []

/-- Splits for `\d+` in greedy preference order: every nonempty digit
prefix, longest first, paired with the corresponding rest. -/
def digitsPlusSplits (l : List Char) : List (List Char × List Char) :=
  let m := (digitsPref l).length
  (List.range m).map (fun k => (l.take (m - k), l.drop (m - k)))

/-- Splits for `\d*` in greedy preference order: every digit prefix,
longest first, including the empty one. -/
def digitsStarSplits (l : List Char) : List (List Char × List Char) :=
  let m := (digitsPref l).length
  (List.range (m + 1)).map (fun k => (l.take (m - k), l.drop (m - k)))

/-- Splits for the latency token `\d+\.?\d*` in the regex crate's
backtracking preference order: integer digits longest first; for each,
the optional dot prefers to be consumed; fractional digits longest
first.  The first component of each pair is the captured text. -/
def floatSplits (l : List Char) : List (List Char × List Char) :=
  (digitsPlusSplits l).flatMap (fun d1 =>
    (match d1.2 with
     | '.' :: r2 => (digitsStarSplits r2).map (fun d2 => (d1.1 ++ '.' :: d2.1, d2.2))
     | _ => [])
    ++ (digitsStarSplits d1.2).map (fun d2 => (d1.1 ++ d2.1, d2.2)))

/-- Strip a literal prefix; `none` when it is not there. -/
def stripPre (lit l : List Char) : Option (List Char) :=
  if lit.isPrefixOf l then some (l.drop lit.length) else none

/-- The named captures of the fping report pattern.  The three latency
groups sit inside one optional non-capturing group in the pattern, so
they participate in a match together or not at all; the model records
them as one optional triple. -/
structure RawCaps where
  ip : List Char
  sent : List Char
  received : List Char
  lost : List Char
  latency : Option (List Char × List Char × List Char)

/-- Match of the optional pattern tail
`(?:,.*= (\d+\.?\d*)/(\d+\.?\d*)/(\d+\.?\d*))?` at the current position;
`none` when the group does not participate in the match. -/
def matchOptGroup (l : List Char) : Option (List Char × List Char × List Char) :=
  match l with
  | ',' :: r1 =>
      (dotStarThen ['=', ' '] r1).findSome? (fun b =>
        (floatSplits b.2).findSome? (fun f1 =>
          (stripPre ['/'] f1.2).bind (fun r3 =>
            (floatSplits r3).findSome? (fun f2 =>
              (stripPre ['/'] f2.2).bind (fun r5 =>
                (floatSplits r5).findSome? (fun f3 =>
                  some (f1.1, f2.1, f3.1)))))))
  | _ => none

/-- Attempt to match the whole fping pattern at the start of `l`,
exploring alternatives in greedy backtracking preference order and
returning the captures of the first success. -/
def matchAt (l : List Char) : Option RawCaps :=
  (dotStarThen [' ', ':'] l).findSome? (fun g1 =>
    (dotStarThen ['=', ' '] g1.2).findSome? (fun b =>
      (digitsPlusSplits b.2).findSome? (fun s1 =>
        (stripPre ['/'] s1.2).bind (fun r1 =>
          (digitsPlusSplits r1).findSome? (fun s2 =>
            (stripPre ['/'] s2.2).bind (fun r2 =>
              (digitsPlusSplits r2).findSome? (fun s3 =>
                (stripPre ['%'] s3.2).bind (fun r3 =>
                  some { ip := g1.1, sent := s1.1, received := s2.1,
                         lost := s3.1, latency := matchOptGroup r3 }))))))))

/-- `Regex::captures`: the leftmost match wins — start positions are
tried left to right and the first one admitting a match is taken. -/
def findCaptures : List Char → Option RawCaps
  | [] => matchAt []
  | c :: rest =>
      match matchAt (c :: rest) with
      | some caps => some caps
      | none => findCaptures rest

/-- Numeric value of a digit string. -/
def natVal (l : List Char) : Nat :=
  l.foldl (fun a c => 10 * a + (c.toNat - 48)) 0

/-- `u8::from_str` applied to a `\d+` capture: all digits, and the value
must fit in a `u8` (overflowing values are a `ParseIntError`). -/
def parseU8 (l : List Char) : Option Nat :=
  if l ≠ [] ∧ l.all Char.isDigit then
    if natVal l ≤ 255 then some (natVal l) else none
  else none

/-- `f64::from_str` applied to a `\d+\.?\d*` capture, modelled exactly
over `ℚ`: the decimal `IP.FR` has the value `(IP·10^k + FR) / 10^k`
where `k` is the number of fractional digits.  Written with `mkRat` on
`Nat` arithmetic so that it evaluates inside the kernel. -/
def parseQ (l : List Char) : Option ℚ :=
  let ip := digitsPref l
  let rest := l.drop ip.length
  if ip = [] then none
  else
    match rest with
    | [] => some (mkRat (natVal ip) 1)
    | '.' :: fr =>
        if fr.all Char.isDigit then
          some (mkRat (natVal ip * 10 ^ fr.length + natVal fr) (10 ^ fr.length))
        else none
    | _ => none

/-- Division of an exact rational by 1000 (the `min_ms / 1000.0` of the
source), written on the normalized representation so that it evaluates
in the kernel; `divThousand_eq` below proves it is division by 1000. -/
def divThousand (q : ℚ) : ℚ := mkRat q.num (q.den * 1000)

/-- `std::net::IpAddr`, restricted to the IPv4 constructor (see the
module comment). -/
inductive IpAddr where
  | v4 (a b c d : Nat) : IpAddr
deriving DecidableEq

/-- Split a character list at every occurrence of `sep`, like Rust
`str::split` (an empty input yields one empty piece, separators at the
ends yield empty pieces). -/
def splitChar (sep : Char) : List Char → List (List Char)
  | [] => [[]]
  | c :: rest =>
      if c = sep then [] :: splitChar sep rest
      else
        match splitChar sep rest with
        | [] => [[c]]
        | g :: gs => (c :: g) :: gs

/-- One IPv4 octet as accepted by `Ipv4Addr::from_str`: nonempty, all
ASCII digits, no leading zero (except the single digit `0`), value at
most 255. -/
def parseOctet (l : List Char) : Option Nat :=
  if l ≠ [] ∧ l.all Char.isDigit ∧ ¬(1 < l.length ∧ l.head? = some '0') then
    if natVal l ≤ 255 then some (natVal l) else none
  else none

/-- `Ipv4Addr::from_str`: exactly four dot-separated octets. -/
def parseIpv4 (l : List Char) : Option IpAddr :=
  match splitChar '.' l with
  | [a, b, c, d] => do
      let x ← parseOctet a
      let y ← parseOctet b
      let z ← parseOctet c
      let w ← parseOctet d
      some (IpAddr.v4 x y z w)
  | _ => none

/-- Rust `str::trim`. -/
def rustTrim (l : List Char) : List Char :=
  ((l.dropWhile Char.isWhitespace).reverse.dropWhile Char.isWhitespace).reverse

/-- The error type of `ping_result.rs` (`FpingParseError`).  Error
sources (`std` error values) are dropped or kept as the offending text,
mirroring what the `snafu` context selectors record. -/
inductive FpingParseError where
  | CaptureRegex
  | MissingField (name : String)
  | IpAddressError (ip_address_output : String)
  | ParseIntError
  | ParseFloatError
deriving DecidableEq

/-- The measurement record of `ping_result.rs` (`PingResult`), field
names as in the source (including the `maxiumum` spelling). -/
structure PingResult where
  ip_address : IpAddr
  sent : Nat
  received : Nat
  lost : Nat
  minimum : Option ℚ
  average : Option ℚ
  maxiumum : Option ℚ
deriving DecidableEq

/-- `<PingResult as FromStr>::from_str` of `ping_result.rs`.

The outer `Option` models the panic of line 50 of the source: the
captures are taken with `.unwrap()`, so a line the pattern does not
match panics (`none`) instead of producing an error value.  On a match
the mandatory groups are always present, so the `MissingField` contexts
of the source are unreachable and the extraction proceeds field by
field, each step failable exactly as in the source. -/
def PingResult.fromStr (s : String) : Option (Except FpingParseError PingResult) :=
  match findCaptures s.data with
  | none => none
  | some caps =>
    some (
      match parseIpv4 (rustTrim caps.ip) with
      | none => .error (.IpAddressError (String.mk (rustTrim caps.ip)))
      | some ip =>
      match parseU8 caps.sent with
      | none => .error .ParseIntError
      | some sent =>
      match parseU8 caps.received with
      | none => .error .ParseIntError
      | some received =>
      match parseU8 caps.lost with
      | none => .error .ParseIntError
      | some lost =>
      match caps.latency with
      | none => .ok { ip_address := ip, sent := sent, received := received, lost := lost,
                      minimum := none, average := none, maxiumum := none }
      | some (mn, av, mx) =>
        match parseQ mn with
        | none => .error .ParseFloatError
        | some mnq =>
        match parseQ av with
        | none => .error .ParseFloatError
        | some avq =>
        match parseQ mx with
        | none => .error .ParseFloatError
        | some mxq =>
          .ok { ip_address := ip, sent := sent, received := received, lost := lost,
                minimum := some (divThousand mnq), average := some (divThousand avq),
                maxiumum := some (divThousand mxq) })

/-- The error type of `main.rs` (`ExporterError`).  As with
`FpingParseError`, the wrapped `std` error sources are kept only as the
offending text (for the command spawn error) or dropped. -/
inductive ExporterError where
  | ParseError
  | MissingField (name : String)
  | CommandError (source : String)
  | IpAddressError (ip_address_output : String)
  | ParseIntError
  | ParseFloatError
deriving DecidableEq

/-- The body of the per-line loop of `process_subnet` (`main.rs`,
lines 76–157): the same pattern and field extraction as
`PingResult.fromStr`, except that a line the pattern does not match is
turned into `ExporterError::ParseError` with `ok_or` instead of
panicking, and the error type is `ExporterError`. -/
def parseLineMain (s : String) : Except ExporterError PingResult :=
  match findCaptures s.data with
  | none => .error .ParseError
  | some caps =>
    match parseIpv4 (rustTrim caps.ip) with
    | none => .error (.IpAddressError (String.mk (rustTrim caps.ip)))
    | some ip =>
    match parseU8 caps.sent with
    | none => .error .ParseIntError
    | some sent =>
    match parseU8 caps.received with
    | none => .error .ParseIntError
    | some received =>
    match parseU8 caps.lost with
    | none => .error .ParseIntError
    | some lost =>
    match caps.latency with
    | none => .ok { ip_address := ip, sent := sent, received := received, lost := lost,
                    minimum := none, average := none, maxiumum := none }
    | some (mn, av, mx) =>
      match parseQ mn with
      | none => .error .ParseFloatError
      | some mnq =>
      match parseQ av with
      | none => .error .ParseFloatError
      | some avq =>
      match parseQ mx with
      | none => .error .ParseFloatError
      | some mxq =>
        .ok { ip_address := ip, sent := sent, received := received, lost := lost,
              minimum := some (divThousand mnq), average := some (divThousand avq),
              maxiumum := some (divThousand mxq) }

/-- The accumulation loop of `process_subnet`: results are pushed in
order, and the `?` on every per-line step makes the first failing line
abort the whole loop with its error. -/
def parseAllLines : List String → Except ExporterError (List PingResult)
  | [] => .ok []
  | l :: rest =>
      match parseLineMain l with
      | .error e => .error e
      | .ok r =>
          match parseAllLines rest with
          | .error e => .error e
          | .ok rs => .ok (r :: rs)

/-- What `Command::output()` returns when the process could be spawned:
its exit status and captured streams (stderr as text, standing for
`String::from_utf8_lossy`). -/
structure CommandOutput where
  status : Int
  stdout : String
  stderr : String

/-- Rust `str::lines`: split on `\n`, drop a final empty piece produced
by a terminating newline, strip one trailing `\r` from each line. -/
def rustLines (s : String) : List String :=
  match s.data with
  | [] => []
  | l =>
      let parts := splitChar '\n' l
      let parts := if parts.getLast? = some [] then parts.dropLast else parts
      parts.map (fun p => String.mk (if p.getLast? = some '\r' then p.dropLast else p))

/-- `process_subnet` of `main.rs` (lines 62–161), as a function of the
outcome of the external command (see the module comment): an I/O error
from the spawn becomes `CommandError`; otherwise the captured stderr is
split into lines and parsed, each line failable as in `parseLineMain`.
The exit status field of the output is available to the function but —
as in the source — never read. -/
def process_subnet (cmd : Except String CommandOutput) : Except ExporterError (List PingResult) :=
  match cmd with
  | .error e => .error (.CommandError e)
  | .ok out => parseAllLines (rustLines out.stderr)

/-- Printable form of an address, `IpAddr::to_string`. -/
def ipToString : IpAddr → String
  | .v4 a b c d =>
      toString a ++ "." ++ toString b ++ "." ++ toString c ++ "." ++ toString d

/-- One rendered metric sample: its label pairs in emission order and
its numeric value (`render_sample` of `prometheus_exporter_base`, kept
as structured data rather than exposition text). -/
structure Sample where
  labels : List (String × String)
  value : ℚ
deriving DecidableEq

/-- The four gauge families the handler renders, in source order:
`ping_rtt_seconds`, `ping_packets_sent`, `ping_packets_received`,
`ping_packet_loss_percent`. -/
structure Exposition where
  rtt : List Sample
  sent : List Sample
  received : List Sample
  loss : List Sample
deriving DecidableEq

/-- The `ping_rtt_seconds` rendering loop of the handler (`main.rs`,
lines 204–224): addresses with `minimum == None` are skipped
(`continue`); otherwise three samples are emitted, labelled
`sample="minimum"`, `sample="average"` and `sample="maxiumum"` (the
source's spelling), the values taken with `.unwrap()` — so `none`
(panic) results if `minimum` is present but `average` or `maxiumum` is
not. -/
def renderRtt : List PingResult → Option (List Sample)
  | [] => some []
  | r :: rest =>
      if r.minimum = none then renderRtt rest
      else do
        let mn ← r.minimum
        let av ← r.average
        let mx ← r.maxiumum
        let tail ← renderRtt rest
        let ip := ipToString r.ip_address
        some (⟨[("address", ip), ("sample", "minimum")], mn⟩ ::
              ⟨[("address", ip), ("sample", "average")], av⟩ ::
              ⟨[("address", ip), ("sample", "maxiumum")], mx⟩ :: tail)

/-- One `address`-labelled sample (the shape shared by the sent /
received / loss loops of the handler). -/
def addrSample (r : PingResult) (v : ℚ) : Sample :=
  ⟨[("address", ipToString r.ip_address)], v⟩

/-- The whole metrics-rendering part of the handler (`main.rs`, lines
194–262): the RTT family (which can panic, hence the `Option`) followed
by one sample per address in each of the three packet families. -/
def renderMetrics (results : List PingResult) : Option Exposition := do
  let rtt ← renderRtt results
  some { rtt := rtt,
         sent := results.map (fun r => addrSample r (r.sent : ℚ)),
         received := results.map (fun r => addrSample r (r.received : ℚ)),
         loss := results.map (fun r => addrSample r (r.lost : ℚ)) }

/-- Rust `p.splitn(2, '=')` followed by the two `unwrap`s of the
handler's query loop: a component with an `=` splits at the first one;
a component without one makes the second `next()` return `None` and the
`unwrap` panic — modelled as `none`. -/
def splitOnceEq : List Char → Option (List Char × List Char)
  | [] => none
  | c :: rest =>
      if c = '=' then some ([], rest)
      else (splitOnceEq rest).map (fun pr => (c :: pr.1, pr.2))

/-- The body of the handler's pair-collection loop: every component
must split at an `=`; the first that does not makes the whole loop
panic (`none`). -/
def collectPairs : List (List Char) → Option (List (String × String))
  | [] => some []
  | comp :: rest => do
      let kv ← splitOnceEq comp
      let tail ← collectPairs rest
      some ((String.mk kv.1, String.mk kv.2) :: tail)

/-- The query-string parsing loop of the handler (`main.rs`, lines
177–186), applied to the (percent-decoded) query text: split on `&`,
split each component at its first `=`, collect the pairs.  `none`
models the panic on a component without `=`. -/
def parseQueryString (q : String) : Option (List (String × String)) :=
  collectPairs (splitChar '&' q.data)

/-- `HashMap::get` over the inserted pairs: the last insertion for a
key wins. -/
def qsGet (qs : List (String × String)) (k : String) : Option String :=
  (qs.reverse.find? (fun kv => kv.1 == k)).map (fun kv => kv.2)

/-- `ipnet::IpNet` restricted, like `IpAddr`, to the IPv4 case. -/
structure IpNet where
  addr : IpAddr
  prefixLen : Nat
deriving DecidableEq

/-- `IpNet::from_str`: CIDR form `a.b.c.d/len` with `len ≤ 32` (IPv6
network forms are not modelled; no theorem depends on which network
strings succeed, only on whether a concrete one does). -/
def parseIpNet (s : String) : Option IpNet :=
  match splitChar '/' s.data with
  | [a, p] => do
      let ip ← parseIpv4 a
      if p ≠ [] ∧ p.all Char.isDigit ∧ natVal p ≤ 32 then
        some { addr := ip, prefixLen := natVal p }
      else none
  | _ => none

/-- The metrics-handler closure of `main` (`main.rs`, lines 173–265), as
a function of the request's decoded query string (absent when the URI
has none) and of the external command's outcome.  The outer `Option`
models the handler panicking (query component without `=`; missing
`target` key; `target` value that does not parse; `unwrap` in the RTT
loop); `some` carries the handler's `Result`: the rendered exposition,
or the error the `?` on `process_subnet` propagates. -/
def handleMetrics (query : Option String) (cmd : Except String CommandOutput) :
    Option (Except ExporterError Exposition) := do
  let qs ← match query with
    | none => some []
    | some q => parseQueryString q
  let tstr ← qsGet qs "target"
  let _net ← parseIpNet tstr
  match process_subnet cmd with
  | .error e => some (.error e)
  | .ok rs => (renderMetrics rs).map (fun e => .ok e)

/-- The three optional latency fields of a result are one atomic unit:
all present, or all absent. -/
def latTogether (r : PingResult) : Prop :=
  (r.minimum.isSome = true ∧ r.average.isSome = true ∧ r.maxiumum.isSome = true) ∨
  (r.minimum = none ∧ r.average = none ∧ r.maxiumum = none)

/-- `true` on `Except.ok`. -/
def isOkE : Except ε α → Bool
  | .ok _ => true
  | .error _ => false

/-- The RTT samples one address contributes, as the specification
describes the family: three labelled samples when the latency triple is
present, none when it is absent.  The third `sample` label value is the
source's spelling `maxiumum`. -/
def rttSamplesSpec (r : PingResult) : List Sample :=
  match r.minimum, r.average, r.maxiumum with
  | some mn, some av, some mx =>
      [⟨[("address", ipToString r.ip_address), ("sample", "minimum")], mn⟩,
       ⟨[("address", ipToString r.ip_address), ("sample", "average")], av⟩,
       ⟨[("address", ipToString r.ip_address), ("sample", "maxiumum")], mx⟩]
  | _, _, _ => []

/-- The reachable-address report line used as the concrete example in
the specification, and its parse (latency values in seconds:
`mkRat 7 10000 = 0.0007` and so on). -/
def lineReachable : String := "1.1.1.1 : xmt/rcv/%loss = 2/2/0%, min/avg/max = 0.70/0.90/1.10"

def prReachable : PingResult :=
  ⟨IpAddr.v4 1 1 1 1, 2, 2, 0, some (mkRat 7 10000), some (mkRat 9 10000), some (mkRat 11 10000)⟩

/-- The 100%-loss report line of the specification and its parse. -/
def lineFullLoss : String := "202.12.11.1 : xmt/rcv/%loss = 2/0/100%"

def prFullLoss : PingResult := ⟨IpAddr.v4 202 12 11 1, 2, 0, 100, none, none, none⟩

/-- Parse of a line with no loss and no latency suffix. -/
def prNoLossNoLatency : PingResult := ⟨IpAddr.v4 1 1 1 1, 2, 2, 0, none, none, none⟩

/-- Parse of a line with 100% loss that nevertheless carries a latency
suffix. -/
def prFullLossWithLatency : PingResult :=
  ⟨IpAddr.v4 1 1 1 1, 2, 0, 100, some (mkRat 1 1000), some (mkRat 2 1000), some (mkRat 3 1000)⟩

/-- Parse of a zero-probe line `0/0/0%`. -/
def prZeroProbes : PingResult := ⟨IpAddr.v4 1 1 1 1, 0, 0, 0, none, none, none⟩

/-- The command output used for the two-address rendering example: one
reachable address and one 100%-loss address. -/
def outTwoAddrs : CommandOutput :=
  ⟨0, "",
   "1.1.1.1 : xmt/rcv/%loss = 2/2/0%, min/avg/max = 0.70/0.90/1.10\n202.12.11.1 : xmt/rcv/%loss = 2/0/100%"⟩

set_option maxRecDepth 100000

theorem divThousand_eq (q : ℚ) : divThousand q = q / 1000 := by
  rw [divThousand, Rat.mkRat_eq_div]
  push_cast
  rw [div_mul_eq_div_div, Rat.num_div_den]

/-- Every result `PingResult::from_str` accepts has the latency triple
atomic: the parser fills the three fields inside one conditional. -/
theorem fromStr_latTogether (s : String) (pr : PingResult)
    (h : PingResult.fromStr s = some (Except.ok pr)) : latTogether pr := by
  unfold PingResult.fromStr at h
  split at h
  · exact Option.noConfusion h
  · rw [Option.some.injEq] at h
    split at h
    · exact Except.noConfusion h
    · split at h
      · exact Except.noConfusion h
      · split at h
        · exact Except.noConfusion h
        · split at h
          · exact Except.noConfusion h
          · split at h
            · cases h; exact Or.inr ⟨rfl, rfl, rfl⟩
            · split at h
              · exact Except.noConfusion h
              · split at h
                · exact Except.noConfusion h
                · split at h
                  · exact Except.noConfusion h
                  · cases h; exact Or.inl ⟨rfl, rfl, rfl⟩

/-- The same atomicity for the duplicated parser inside
`process_subnet`. -/
theorem parseLineMain_latTogether (s : String) (pr : PingResult)
    (h : parseLineMain s = Except.ok pr) : latTogether pr := by
  unfold parseLineMain at h
  split at h
  · exact Except.noConfusion h
  · split at h
    · exact Except.noConfusion h
    · split at h
      · exact Except.noConfusion h
      · split at h
        · exact Except.noConfusion h
        · split at h
          · exact Except.noConfusion h
          · split at h
            · cases h; exact Or.inr ⟨rfl, rfl, rfl⟩
            · split at h
              · exact Except.noConfusion h
              · split at h
                · exact Except.noConfusion h
                · split at h
                  · exact Except.noConfusion h
                  · cases h; exact Or.inl ⟨rfl, rfl, rfl⟩

/-- Every member of a successfully accumulated result list has the
atomic latency triple. -/
theorem parseAllLines_mem_latTogether (ls : List String) (rs : List PingResult)
    (h : parseAllLines ls = .ok rs) : ∀ r ∈ rs, latTogether r := by
  induction ls generalizing rs with
  | nil =>
      unfold parseAllLines at h
      cases h
      intro r hr
      cases hr
  | cons l rest ih =>
      unfold parseAllLines at h
      split at h
      · exact Except.noConfusion h
      · rename_i r0 heq
        split at h
        · exact Except.noConfusion h
        · rename_i rs0 heq2
          cases h
          intro r hr
          cases hr with
          | head => exact parseLineMain_latTogether l r0 heq
          | tail _ hmem => exact ih rs0 heq2 r hmem

/-- The accumulation loop succeeds only when every line parses. -/
theorem parseAllLines_lines_ok (ls : List String) (rs : List PingResult)
    (h : parseAllLines ls = .ok rs) : ∀ l ∈ ls, isOkE (parseLineMain l) = true := by
  induction ls generalizing rs with
  | nil => intro l hl; cases hl
  | cons l0 rest ih =>
      unfold parseAllLines at h
      split at h
      · exact Except.noConfusion h
      · rename_i r0 heq
        split at h
        · exact Except.noConfusion h
        · rename_i rs0 heq2
          intro l hl
          cases hl with
          | head => rw [heq]; rfl
          | tail _ hmem => exact ih rs0 heq2 l hmem

/-- On a result list whose latency triples are atomic, the RTT loop
does not panic and emits exactly the per-address samples of
`rttSamplesSpec`, in order. -/
theorem renderRtt_spec (rs : List PingResult) :
    (∀ r ∈ rs, latTogether r) → renderRtt rs = some (rs.flatMap rttSamplesSpec) := by
  induction rs with
  | nil => intro _; rfl
  | cons r rest ih =>
      intro hall
      have hr : latTogether r := hall r (List.mem_cons_self r rest)
      have hrest : ∀ x ∈ rest, latTogether x := fun x hx => hall x (List.mem_cons_of_mem r hx)
      have ihr := ih hrest
      cases hr with
      | inl hsome =>
          obtain ⟨h1, h2, h3⟩ := hsome
          obtain ⟨mn, hmn⟩ := Option.isSome_iff_exists.mp h1
          obtain ⟨av, hav⟩ := Option.isSome_iff_exists.mp h2
          obtain ⟨mx, hmx⟩ := Option.isSome_iff_exists.mp h3
          simp [renderRtt, hmn, hav, hmx, ihr, rttSamplesSpec, List.flatMap_cons]
      | inr hnone =>
          obtain ⟨h1, h2, h3⟩ := hnone
          simp [renderRtt, h1, h2, h3, ihr, rttSamplesSpec, List.flatMap_cons]

/-- `(splitn(2, '=') + unwrap)` succeeds exactly on components that
contain an `=`. -/
theorem splitOnceEq_isSome (l : List Char) : (splitOnceEq l).isSome = true ↔ '=' ∈ l := by
  induction l with
  | nil => simp [splitOnceEq]
  | cons c rest ih =>
      by_cases hc : c = '='
      · subst hc; simp [splitOnceEq]
      · simp [splitOnceEq, hc, ih, List.mem_cons, Ne.symm hc]

/-- The pair-collection loop succeeds exactly when every component
contains an `=`. -/
theorem collectPairs_isSome (comps : List (List Char)) :
    (collectPairs comps).isSome = true ↔ ∀ c ∈ comps, '=' ∈ c := by
  induction comps with
  | nil => simp [collectPairs]
  | cons comp rest ih =>
      cases hs : splitOnceEq comp with
      | none =>
          have : ¬('=' ∈ comp) := by
            intro hmem
            have := (splitOnceEq_isSome comp).mpr hmem
            rw [hs] at this
            exact Bool.noConfusion this
          simp [collectPairs, hs, this]
      | some kv =>
          have hmem : '=' ∈ comp := (splitOnceEq_isSome comp).mp (by rw [hs]; rfl)
          cases hrest : collectPairs rest with
          | none => simp [collectPairs, hs, hrest, ← ih, hmem]
          | some tail => simp [collectPairs, hs, hrest, ← ih, hmem]

/-- Claim C1 (counterexample).  The claim says a line that fails to
parse is dropped and the sweep still succeeds with the remaining lines.
On a two-line diagnostic output whose first line does not match the
pattern and whose second line is the specification's own reachable
example line, `process_subnet` returns `ParseError` for the whole
sweep — even though the second line parses fine on its own. -/
theorem C1_bad_line_aborts_sweep :
    process_subnet (.ok ⟨0, "",
        "not a ping report line\n1.1.1.1 : xmt/rcv/%loss = 2/2/0%, min/avg/max = 0.70/0.90/1.10"⟩)
      = .error .ParseError ∧
    parseLineMain lineReachable = .ok prReachable :=
  ⟨rfl, rfl⟩

/-- Claim C1 (amended): a per-line parse error is propagated as failure
of the whole sweep; `process_subnet` returns a successful `ResultSet`
only when every line of the diagnostic output parses. -/
theorem C1_sweep_ok_needs_all_lines (out : CommandOutput) (rs : List PingResult)
    (l : String) (h : process_subnet (.ok out) = .ok rs)
    (hl : l ∈ rustLines out.stderr) : isOkE (parseLineMain l) = true :=
  parseAllLines_lines_ok (rustLines out.stderr) rs h l hl

theorem C1_sweep_ok_needs_all_lines_witness :
    isOkE (parseLineMain "1.1.1.1 : a = 0/0/0%") = true :=
  C1_sweep_ok_needs_all_lines ⟨0, "", "1.1.1.1 : a = 0/0/0%"⟩ [prZeroProbes]
    "1.1.1.1 : a = 0/0/0%" (by rfl) (by decide)

/-- Claim C2: a line that does not match the required shape — here the
specification's example line with the `%` marker removed — makes
`PingResult::from_str` panic (the `.unwrap()` on the captures, modelled
as `none`) instead of returning a classified parse error, while the
duplicated parser inside `process_subnet` returns
`ExporterError::ParseError` for the very same line.  The unused
`FpingParseError::CaptureRegex` variant records the intended
non-panicking behaviour the claim describes. -/
theorem C2_nonmatching_line_panics :
    PingResult.fromStr "1.1.1.1 : xmt/rcv/%loss = 2/2/0" = none ∧
    parseLineMain "1.1.1.1 : xmt/rcv/%loss = 2/2/0" = .error .ParseError :=
  ⟨rfl, rfl⟩

/-- Claim C3 (counterexample).  With the external tool exiting with a
failure status (3) and a normal report line on stderr, `process_subnet`
parses the output and succeeds instead of returning a command-failure
error: the exit status plays no role. -/
theorem C3_failure_status_still_parsed :
    process_subnet (.ok ⟨3, "", lineReachable⟩) = .ok [prReachable] :=
  rfl

/-- Claim C3 (amended): `process_subnet` never inspects the exit
status — its result depends only on the captured stderr text — and a
`CommandError` is returned exactly when spawning the command itself
fails with an I/O error, in which case nothing is parsed. -/
theorem C3_status_never_inspected :
    (∀ (st1 st2 : Int) (so1 so2 txt : String),
        process_subnet (.ok ⟨st1, so1, txt⟩) = process_subnet (.ok ⟨st2, so2, txt⟩)) ∧
    (∀ e : String, process_subnet (.error e) = .error (.CommandError e)) :=
  ⟨fun _ _ _ _ _ => rfl, fun _ => rfl⟩

/-- Claim C4 (counterexample).  The line `1.1.1.1 : xmt/rcv/%loss =
2/2/0%` parses successfully with `lost = 0` and an absent latency
triple, refuting the claimed equivalence `lost_percent == 100 ⇔ latency
triple absent`. -/
theorem C4_lost_latency_equivalence_fails :
    PingResult.fromStr "1.1.1.1 : xmt/rcv/%loss = 2/2/0%" = some (.ok prNoLossNoLatency) ∧
    ¬(prNoLossNoLatency.lost = 100 ↔ prNoLossNoLatency.minimum = none) :=
  ⟨rfl, by decide⟩

/-- Claim C4 (amended): the parser enforces no cross-field invariant
relating `lost`, `received` and the latency triple.  Lines parse
successfully with the triple absent and `lost ≠ 100`; with `lost = 100`
and the triple present; and with `received = 0` but `lost ≠ 100`.  The
triple tracks only whether the optional latency suffix matched. -/
theorem C4_no_cross_field_invariant :
    (PingResult.fromStr "1.1.1.1 : xmt/rcv/%loss = 2/2/0%" = some (.ok prNoLossNoLatency) ∧
      prNoLossNoLatency.lost ≠ 100 ∧ prNoLossNoLatency.minimum = none) ∧
    (PingResult.fromStr "1.1.1.1 : xmt/rcv/%loss = 2/0/100%, min/avg/max = 1/2/3"
        = some (.ok prFullLossWithLatency) ∧
      prFullLossWithLatency.lost = 100 ∧ prFullLossWithLatency.minimum ≠ none) ∧
    (PingResult.fromStr "1.1.1.1 : a = 0/0/0%" = some (.ok prZeroProbes) ∧
      prZeroProbes.received = 0 ∧ prZeroProbes.lost ≠ 100) :=
  ⟨⟨rfl, by decide, rfl⟩, ⟨rfl, rfl, by decide⟩, ⟨rfl, rfl, by decide⟩⟩

/-- Claim C5: the specification's reachable example line parses to
address 1.1.1.1, sent 2, received 2, lost 0, and latency values
0.00070 s, 0.00090 s and 0.00110 s — each millisecond figure divided by
1000 (`7/10000 = 0.0007` and so on, `f64` modelled as exact `ℚ`). -/
theorem C5_reachable_line_roundtrip :
    PingResult.fromStr "1.1.1.1 : xmt/rcv/%loss = 2/2/0%, min/avg/max = 0.70/0.90/1.10"
      = some (.ok ⟨IpAddr.v4 1 1 1 1, 2, 2, 0,
                   some (7/10000), some (9/10000), some (11/10000)⟩) := by
  have h : PingResult.fromStr "1.1.1.1 : xmt/rcv/%loss = 2/2/0%, min/avg/max = 0.70/0.90/1.10"
      = some (.ok ⟨IpAddr.v4 1 1 1 1, 2, 2, 0,
                   some (mkRat 7 10000), some (mkRat 9 10000), some (mkRat 11 10000)⟩) := rfl
  rw [h]
  norm_num [Rat.mkRat_eq_div]

/-- Claim C6: the specification's 100%-loss example line parses to
address 202.12.11.1, sent 2, received 0, lost 100, and all three
latency fields absent. -/
theorem C6_loss_line_roundtrip :
    PingResult.fromStr "202.12.11.1 : xmt/rcv/%loss = 2/0/100%"
      = some (.ok ⟨IpAddr.v4 202 12 11 1, 2, 0, 100, none, none, none⟩) :=
  rfl

/-- Claim C7 (counterexample).  Rendering one fully reachable address
produces three RTT samples whose `sample` labels are `"minimum"`,
`"average"` and `"maxiumum"` — the third is the source's spelling, not
the claimed `"maximum"`. -/
theorem C7_third_label_misspelled :
    (renderMetrics [prReachable]).map (fun e => e.rtt.map Sample.labels)
      = some [[("address", "1.1.1.1"), ("sample", "minimum")],
              [("address", "1.1.1.1"), ("sample", "average")],
              [("address", "1.1.1.1"), ("sample", "maxiumum")]] ∧
    ("maxiumum" : String) ≠ "maximum" :=
  ⟨rfl, by decide⟩

/-- Claim C7 (amended): for every result set a sweep produces, the
renderer panics on nothing and emits, per address: three RTT samples
(labels `address` and `sample`, the latter valued `"minimum"`,
`"average"`, `"maxiumum"` — the source's spelling of the third) when
the latency triple is present and zero RTT samples when it is absent,
plus exactly one `address`-labelled sample in each of the sent,
received and loss families. -/
theorem C7_families_shape (out : CommandOutput) (rs : List PingResult)
    (h : process_subnet (.ok out) = .ok rs) :
    renderMetrics rs
      = some ⟨rs.flatMap rttSamplesSpec,
              rs.map (fun r => addrSample r (r.sent : ℚ)),
              rs.map (fun r => addrSample r (r.received : ℚ)),
              rs.map (fun r => addrSample r (r.lost : ℚ))⟩ := by
  have hall := parseAllLines_mem_latTogether (rustLines out.stderr) rs h
  unfold renderMetrics
  rw [renderRtt_spec rs hall]
  rfl

theorem C7_families_shape_witness :
    renderMetrics [prReachable, prFullLoss]
      = some ⟨[⟨[("address", "1.1.1.1"), ("sample", "minimum")], mkRat 7 10000⟩,
               ⟨[("address", "1.1.1.1"), ("sample", "average")], mkRat 9 10000⟩,
               ⟨[("address", "1.1.1.1"), ("sample", "maxiumum")], mkRat 11 10000⟩],
              [⟨[("address", "1.1.1.1")], 2⟩, ⟨[("address", "202.12.11.1")], 2⟩],
              [⟨[("address", "1.1.1.1")], 2⟩, ⟨[("address", "202.12.11.1")], 0⟩],
              [⟨[("address", "1.1.1.1")], 0⟩, ⟨[("address", "202.12.11.1")], 100⟩]⟩ :=
  (C7_families_shape outTwoAddrs [prReachable, prFullLoss] (by rfl)).trans (by rfl)

/-- Claim C8 (counterexample).  A request whose query string carries no
`target` parameter makes the handler panic (the `.unwrap()` on the map
lookup, modelled as `none`) instead of producing a client-error
response. -/
theorem C8_no_client_error_response :
    handleMetrics (some "foo=bar") (.ok ⟨0, "", ""⟩) = none :=
  rfl

/-- Claim C8 (amended): when the query string is absent, when it
carries no `target` key, or when the `target` value does not parse as a
network, the handler panics (`none`) — no response, client-error or
otherwise, is produced. -/
theorem C8_missing_target_panics :
    (∀ cmd : Except String CommandOutput, handleMetrics none cmd = none) ∧
    (∀ (q : String) (qs : List (String × String)) (cmd : Except String CommandOutput),
        parseQueryString q = some qs → qsGet qs "target" = none →
        handleMetrics (some q) cmd = none) ∧
    (∀ (q : String) (qs : List (String × String)) (t : String)
        (cmd : Except String CommandOutput),
        parseQueryString q = some qs → qsGet qs "target" = some t → parseIpNet t = none →
        handleMetrics (some q) cmd = none) := by
  refine ⟨fun cmd => rfl, ?_, ?_⟩
  · intro q qs cmd hq hget
    simp [handleMetrics, hq, hget]
  · intro q qs t cmd hq hget hp
    simp [handleMetrics, hq, hget, hp]

theorem C8_missing_target_panics_witness :
    handleMetrics (some "target=abc") (.ok ⟨0, "", ""⟩) = none :=
  C8_missing_target_panics.2.2 "target=abc" [("target", "abc")] "abc" (.ok ⟨0, "", ""⟩)
    rfl rfl rfl

/-- Claim C9: in every result the line parser accepts, the three
optional latency fields are one atomic unit — all present or all
absent; no parse yields a strict subset of the three. -/
theorem C9_latency_triple_atomic (s : String) (pr : PingResult)
    (h : PingResult.fromStr s = some (Except.ok pr)) :
    (pr.minimum.isSome = true ∧ pr.average.isSome = true ∧ pr.maxiumum.isSome = true) ∨
    (pr.minimum = none ∧ pr.average = none ∧ pr.maxiumum = none) :=
  fromStr_latTogether s pr h

theorem C9_latency_triple_atomic_witness :
    (prReachable.minimum.isSome = true ∧ prReachable.average.isSome = true ∧
      prReachable.maxiumum.isSome = true) ∨
    (prReachable.minimum = none ∧ prReachable.average = none ∧ prReachable.maxiumum = none) :=
  C9_latency_triple_atomic lineReachable prReachable (by rfl)

/-- Claim C10: the handler's query-string parsing completes without
panicking exactly when every `&`-separated component of the (decoded)
query text contains an `=`; a component with no `=` — for example the
whole query `foo` — makes it panic. -/
theorem C10_query_parse_iff (q : String) :
    (parseQueryString q).isSome = true ↔ ∀ comp ∈ splitChar '&' q.data, '=' ∈ comp :=
  collectPairs_isSome (splitChar '&' q.data)

end FpingExporter

